import Mathlib

/-!
Formal model of the conversational NLP-to-SQL orchestration engine of the
power-bi-agent repository.

The development shallowly embeds the Python sources:
Python strings become Lean `String`, `None` becomes `Option.none`,
dictionaries become association lists, wall-clock seconds become `Int`,
and the regular expressions of the validator are replaced by explicit
character-list scanners that implement the same matching discipline
(case folds, word boundaries, line-local comment scans).

Modelled files:
* src/utils/constants.py        (configuration constants)
* src/utils/memory_manager.py   (ConversationTurn, SessionMemory, MemoryManager)
* src/nodes/user_input.py       (user_input_node, should_exit)
* src/nodes/query_validator.py  (three validation stages, query_validator_node,
                                 route_after_validation)
* src/nodes/sql_executor.py     (route_after_execution)
* src/nodes/schema_inspector.py (load_schema_cache)
* src/graphs/nlp_to_sql_graph.py (registered nodes and conditional edges)
-/

namespace PowerBIAgent

/-! ### Constants (src/utils/constants.py) -/

def EXIT_COMMANDS : List String := ["exit", "quit", "bye", "goodbye", "stop"]

def FORBIDDEN_SQL_KEYWORDS : List String :=
  ["DROP", "DELETE", "TRUNCATE", "UPDATE", "INSERT", "ALTER", "CREATE"]

def MAX_QUERY_LENGTH : Nat := 5000

/-- CACHE_TTL seconds (default 3600). -/
def CACHE_TTL : Int := 3600

/-! Node name constants from the NodeNames class of src/utils/constants.py. -/
namespace NodeNames

def USER_INPUT : String := "user_input"

def CONTEXT_MANAGER : String := "context_manager"

def SCHEMA_INSPECTOR : String := "schema_inspector"

def VALIDATOR : String := "validator"

def SQL_EXECUTOR : String := "sql_executor"

def OUTPUT_FORMATTER : String := "output_formatter"

def ERROR_HANDLER : String := "error_handler"

def FINAL_RESPONSE : String := "final_response"

def EXIT : String := "exit_node"

end NodeNames

/-! ### Python string helpers

Python str operations are modelled on the character list of the string so
that every definition evaluates by kernel reduction. -/

/-- Python str.strip(): remove leading and trailing whitespace. -/
def pyStrip (s : String) : String :=
  String.mk
    (((s.data.dropWhile Char.isWhitespace).reverse.dropWhile
      Char.isWhitespace).reverse)

/-- Python str.lower(). -/
def pyLower (s : String) : String := String.mk (s.data.map Char.toLower)

/-- Python str.upper(). -/
def pyUpper (s : String) : String := String.mk (s.data.map Char.toUpper)

/-- Python len() of a string (character count). -/
def pyLen (s : String) : Nat := s.data.length

/-- Character-prefix test used for Python str.startswith. -/
def startsWithList : List Char → List Char → Bool
  | [], _ => true
  | _ :: _, [] => false
  | p :: ps, c :: cs => c == p && startsWithList ps cs

/-- Python str.startswith(pre). -/
def pyStartsWith (s pre : String) : Bool := startsWithList pre.data s.data

/-- Truthiness of a Python Optional[str]: None and the empty string are falsy. -/
def truthyStr : Option String → Bool
  | none => false
  | some s => !s.data.isEmpty

/-- Truthiness of a Python Optional[list]: None and the empty list are falsy. -/
def truthyList {α : Type} : Option (List α) → Bool
  | none => false
  | some l => !l.isEmpty

/-- Tokenizer loop for Python str.split() with no separator; the current
partial token is accumulated in reverse. -/
def pySplitAux (cur : List Char) : List Char → List String
  | [] => if cur.isEmpty then [] else [String.mk cur.reverse]
  | c :: rest =>
    if c.isWhitespace then
      if cur.isEmpty then pySplitAux [] rest
      else String.mk cur.reverse :: pySplitAux [] rest
    else pySplitAux (c :: cur) rest

/-- Python str.split() with no separator: maximal whitespace-free tokens. -/
def pySplit (s : String) : List String := pySplitAux [] s.data

/-! ### Memory manager (src/utils/memory_manager.py)

Result rows (Python dictionaries) are opaque to every claim, so a row is
modelled as an uninterpreted `String`.
-/

/-- ConversationTurn dataclass (src/utils/memory_manager.py lines 18-30). -/
structure ConversationTurn where
  timestamp : String
  user_query : String
  sql_query : Option String := none
  results_count : Option Nat := none
  success : Bool := true
  error_message : Option String := none
deriving DecidableEq

/-- SessionMemory dataclass (src/utils/memory_manager.py lines 33-43).
The schema_cache and metadata fields are never read by the modelled
operations and are omitted. -/
structure SessionMemory where
  session_id : String
  started_at : String
  conversation_history : List ConversationTurn := []
  last_query : Option String := none
  last_sql : Option String := none
  last_results : Option (List String) := none
deriving DecidableEq

/-- SessionMemory.add_turn (src/utils/memory_manager.py lines 45-67):
appends one turn and, only when the turn succeeded, moves
last_query / last_sql. The datetime.now() timestamp is an explicit
argument. -/
def SessionMemory.add_turn (s : SessionMemory) (timestamp user_query : String)
    (sql_query : Option String) (results_count : Option Nat)
    (success : Bool) (error_message : Option String) : SessionMemory :=
  let turn : ConversationTurn :=
    { timestamp := timestamp, user_query := user_query, sql_query := sql_query,
      results_count := results_count, success := success,
      error_message := error_message }
  { s with
    conversation_history := s.conversation_history ++ [turn],
    last_query := if success then some user_query else s.last_query,
    last_sql := if success then sql_query else s.last_sql }

/-- MemoryManager (src/utils/memory_manager.py lines 107-112): the session
dictionary is an association list, updated in place by `setSession`. -/
structure MemoryManager where
  sessions : List (String × SessionMemory) := []
  current_session_id : Option String := none
deriving DecidableEq

/-- Dictionary assignment sessions[sid] = session: replace the existing
binding for the key or append a new one. -/
def setSession : List (String × SessionMemory) → String → SessionMemory →
    List (String × SessionMemory)
  | [], k, v => [(k, v)]
  | (k', v') :: rest, k, v =>
    if k' = k then (k, v) :: rest else (k', v') :: setSession rest k v

/-- MemoryManager.create_session (src/utils/memory_manager.py lines 114-136).
A falsy session_id argument (None or the empty string) makes Python generate
a timestamp-based id; that generated id is the explicit `genId` argument,
and datetime.now().isoformat() is the explicit `started_at` argument. -/
def create_session (m : MemoryManager) (session_id : Option String)
    (genId started_at : String) : MemoryManager × String :=
  let sid :=
    match session_id with
    | some s => if s.data.isEmpty then genId else s
    | none => genId
  let session : SessionMemory := { session_id := sid, started_at := started_at }
  ({ sessions := setSession m.sessions sid session,
     current_session_id := some sid }, sid)

/-- Evaluation of the Python expression
`sid = session_id or self.current_session_id`: a falsy session_id
(None or the empty string) falls back to the current session id. -/
def effectiveSid (session_id current : Option String) : Option String :=
  match session_id with
  | some s => if s.data.isEmpty then current else some s
  | none => current

/-- MemoryManager.get_session (src/utils/memory_manager.py lines 138-149). -/
def get_session (m : MemoryManager) (session_id : Option String) :
    Option SessionMemory :=
  match effectiveSid session_id m.current_session_id with
  | none => none
  | some sid => m.sessions.lookup sid

/-- Turn application performed by MemoryManager.update_session on its target
session (src/utils/memory_manager.py lines 177-188): results_count is
`len(results) if results else None` (None for a missing or empty list), the
turn is appended via add_turn, and last_results is updated only for a
successful turn with truthy results. -/
def apply_update_turn (s : SessionMemory) (timestamp user_query : String)
    (sql_query : Option String) (results : Option (List String))
    (success : Bool) (error_message : Option String) : SessionMemory :=
  let results_count : Option Nat :=
    match results with
    | none => none
    | some r => if r.isEmpty then none else some r.length
  let s := s.add_turn timestamp user_query sql_query results_count success
    error_message
  if success && truthyList results then { s with last_results := results } else s

/-- MemoryManager.update_session (src/utils/memory_manager.py lines 151-190).
When no session is found for the referenced id, the code calls
create_session() WITHOUT an id, so the new session is keyed by the freshly
generated `genId`, not by the referenced session_id; the turn then lands in
that new session (get_session() with no argument reads the new
current_session_id). -/
def update_session (m : MemoryManager) (user_query : String)
    (sql_query : Option String) (results : Option (List String))
    (success : Bool) (error_message : Option String)
    (session_id : Option String) (genId started_at timestamp : String) :
    MemoryManager :=
  let found :=
    match effectiveSid session_id m.current_session_id with
    | none => none
    | some sid => (m.sessions.lookup sid).map (fun s => (sid, s))
  match found with
  | some (sid, s) =>
    let s' := apply_update_turn s timestamp user_query sql_query results success
      error_message
    { m with sessions := setSession m.sessions sid s' }
  | none =>
    let m₂ := (create_session m none genId started_at).1
    -- get_session() after create_session() returns exactly the fresh record
    -- just stored under genId.
    let fresh : SessionMemory := { session_id := genId, started_at := started_at }
    let s' := apply_update_turn fresh timestamp user_query sql_query results
      success error_message
    { m₂ with sessions := setSession m₂.sessions genId s' }

/-- Referential tokens scanned by resolve_pronoun_references
(src/utils/memory_manager.py line 243). -/
def reference_words : List String := ["it", "that", "this", "them", "those", "these", "same"]

/-- MemoryManager.resolve_pronoun_references (src/utils/memory_manager.py
lines 221-252), stated over the session the manager resolves: if the session
is absent or its last_query is falsy the query is returned unchanged;
otherwise, when one of the reference words occurs as a whitespace-delimited
token of the lower-cased query, the context note quoting last_query is
appended. -/
def resolve_pronoun_references (query : String) (session : Option SessionMemory) :
    String :=
  match session with
  | none => query
  | some s =>
    match s.last_query with
    | none => query
    | some lq =>
      if lq.data.isEmpty then query
      else
        let query_lower := pyLower query
        let has_reference :=
          reference_words.any (fun w => (pySplit query_lower).contains w)
        if has_reference then
          query ++ " (referring to previous query: \x27" ++ lq ++ "\x27)"
        else query

/-- Session lookup step of MemoryManager.resolve_pronoun_references. -/
def resolve_pronoun_references_mgr (m : MemoryManager) (query : String)
    (session_id : Option String) : String :=
  resolve_pronoun_references query (get_session m session_id)

/-- Get-or-create step of context_manager_node
(src/nodes/context_manager.py lines 40-45): unlike update_session, this DOES
pass the referenced session_id to create_session. -/
def context_manager_ensure_session (m : MemoryManager)
    (session_id : Option String) (genId started_at : String) : MemoryManager :=
  match get_session m session_id with
  | some _ => m
  | none => (create_session m session_id genId started_at).1

/-! ### User input node (src/nodes/user_input.py) -/

/-- Partial state patch returned by user_input_node; keys the node does not
write stay `none`. -/
structure UserInputUpdates where
  should_exit : Bool
  user_query : Option String := none
  error_message : Option String := none
  retry_count : Option Nat := none
deriving DecidableEq

/-- user_input_node (src/nodes/user_input.py lines 19-88): the raw query is
stripped; an exit-command match (on the lower-cased form) returns
should_exit=true; an empty query returns an error patch; otherwise pronoun
references are resolved against the session and retry_count is reset to 0. -/
def user_input_node (raw_query : String) (session : Option SessionMemory) :
    UserInputUpdates :=
  let user_query := pyStrip raw_query
  if EXIT_COMMANDS.contains (pyLower user_query) then
    { should_exit := true }
  else if user_query.data.isEmpty then
    { should_exit := false, error_message := some "Please provide a query" }
  else
    { should_exit := false,
      user_query := some (resolve_pronoun_references user_query session),
      error_message := none,
      retry_count := some 0 }

/-- Routing function should_exit (src/nodes/user_input.py lines 91-99);
the state field is Optional because state.get supplies a False default. -/
def should_exit_route (s : Option Bool) : String :=
  if s.getD false then NodeNames.EXIT else NodeNames.CONTEXT_MANAGER

/-! ### Live graph wiring (src/graphs/nlp_to_sql_graph.py) -/

/-- Nodes actually registered by create_nlp_to_sql_graph
(src/graphs/nlp_to_sql_graph.py lines 42-52); the remaining add_node calls
are commented out in the source. -/
def registered_nodes : List String :=
  [NodeNames.USER_INPUT, NodeNames.CONTEXT_MANAGER, NodeNames.SCHEMA_INSPECTOR]

/-- Conditional-edge mapping registered for the user_input node
(src/graphs/nlp_to_sql_graph.py lines 60-67): only the CONTEXT_MANAGER
branch is present; the EXIT branch is commented out. -/
def user_input_branch_map (target : String) : Option String :=
  if target = NodeNames.CONTEXT_MANAGER then some NodeNames.CONTEXT_MANAGER
  else none

/-! ### Executor and validator routing -/

/-- route_after_validation (src/nodes/query_validator.py lines 256-269). -/
def route_after_validation (validation_passed : Option Bool) : String :=
  if validation_passed.getD false then NodeNames.SQL_EXECUTOR
  else NodeNames.ERROR_HANDLER

/-- route_after_execution (src/nodes/sql_executor.py lines 128-141): on
success it returns OUTPUT_FORMATTER, but on failure the Python function only
prints "execution failure" and falls off the end, implicitly returning
None — modelled as `Option.none`. -/
def route_after_execution (execution_success : Option Bool) : Option String :=
  if execution_success.getD false then some NodeNames.OUTPUT_FORMATTER
  else none

/-! ### Schema cache loading (src/nodes/schema_inspector.py) -/

/-- On-disk states the cache reader can encounter: no file, a file whose
JSON or timestamp cannot be parsed, or a readable record
{timestamp, schema} in which either key may be missing. -/
inductive CacheFileState (α : Type)
  | missing
  | malformed
  | wellFormed (timestamp : Option Int) (schema : Option α)
deriving DecidableEq

/-- Seconds timestamp of the Python default date 2000-01-01 used when the
timestamp key is absent. -/
def EPOCH_2000 : Int := 946684800

/-- load_schema_cache (src/nodes/schema_inspector.py lines 21-46): a missing
file, a malformed file (json.load or fromisoformat raising, caught by the
bare except) and an expired timestamp all return None; the cached schema is
returned only while now - cached_time < CACHE_TTL (strict). -/
def load_schema_cache {α : Type} (cache_enabled : Bool) (file : CacheFileState α)
    (now : Int) : Option α :=
  if !cache_enabled then none
  else
    match file with
    | .missing => none
    | .malformed => none
    | .wellFormed ts schema =>
      if now - ts.getD EPOCH_2000 < CACHE_TTL then schema else none

/-! ### Character scanners replacing the validator's regular expressions
(src/nodes/query_validator.py)

A regex \b word boundary holds where the neighbouring character is not a
word character [A-Za-z0-9_]; re.IGNORECASE is modelled by comparing
upper-cased characters. -/

/-- Word character of the regex class \w (the SQL text is ASCII). -/
def isWordChar (c : Char) : Bool := c.isAlphanum || c == '_'

/-- Matches the exact character sequence `pat` at the front of `l`,
returning the remainder. -/
def dropExact : List Char → List Char → Option (List Char)
  | [], l => some l
  | _ :: _, [] => none
  | k :: ks, c :: cs => if c == k then dropExact ks cs else none

/-- Case-insensitive variant of `dropExact`. -/
def dropCI : List Char → List Char → Option (List Char)
  | [], l => some l
  | _ :: _, [] => none
  | k :: ks, c :: cs => if c.toUpper == k.toUpper then dropCI ks cs else none

/-- Word boundary against the character before the match position
(none at the start of the text). -/
def wordBoundaryOk : Option Char → Bool
  | none => true
  | some c => !isWordChar c

/-- Whether \bkw\b matches (case-insensitively) exactly at the front of `l`,
with `prev` the character before that position. -/
def wordAtHead (prev : Option Char) (kw l : List Char) : Bool :=
  wordBoundaryOk prev &&
    match dropCI kw l with
    | none => false
    | some [] => true
    | some (c :: _) => !isWordChar c

/-- Whether \bkw\b matches case-insensitively anywhere in the text,
scanning every position while tracking the previous character. -/
def containsWordAux (kw : List Char) : Option Char → List Char → Bool
  | prev, [] => wordAtHead prev kw []
  | prev, c :: rest => wordAtHead prev kw (c :: rest) || containsWordAux kw (some c) rest

/-- re.search of \bkw\b in s (case-insensitive). -/
def containsWord (s kw : String) : Bool := containsWordAux kw.data none s.data

/-- Whether `sub` occurs as a contiguous substring (Python `sub in s`). -/
def hasSubstrAux (sub : List Char) : List Char → Bool
  | [] => (dropExact sub []).isSome
  | c :: rest => (dropExact sub (c :: rest)).isSome || hasSubstrAux sub rest

/-- Python substring membership `sub in s`. -/
def strContains (s sub : String) : Bool := hasSubstrAux sub.data s.data

/-- Keywords of the comment-injection regex
--[^\n]*\b(DROP|DELETE|INSERT)\b (src/nodes/query_validator.py line 89). -/
def comment_regex_keywords : List String := ["DROP", "DELETE", "INSERT"]

/-- Characters of the current line from this position on ([^\n]* can only
consume these). -/
def lineRemainder (l : List Char) : List Char := l.takeWhile (fun c => c != '\n')

/-- Scanner for re.search of --[^\n]*\b(kw₁|...)\b, IGNORECASE: at every
occurrence of "--", one of the keywords must occur as a word in the
remainder of that line. -/
def suspiciousCommentAux (kws : List String) : Option Char → List Char → Bool
  | _, [] => false
  | prev, c :: rest =>
    (prev == some '-' && c == '-' &&
      kws.any (fun kw => containsWordAux kw.data (some '-') (lineRemainder rest)))
    || suspiciousCommentAux kws (some c) rest

/-- The comment-injection regex of validate_sql_safety applied to the query. -/
def has_suspicious_comment (sql : String) : Bool :=
  suspiciousCommentAux comment_regex_keywords none sql.data

/-- Spec-side reading of the suspicious-comment rule: some "--" comment
opener is IMMEDIATELY followed by one of the keywords, as a whole word
(case-insensitive). -/
def immediateCommentAux (kws : List String) : Option Char → List Char → Bool
  | _, [] => false
  | prev, c :: rest =>
    (prev == some '-' && c == '-' &&
      kws.any (fun kw => wordAtHead (some '-') kw.data rest))
    || immediateCommentAux kws (some c) rest

/-- Whether some inline comment "--" is immediately followed by one of the
given keywords as a whole word. -/
def has_immediate_comment_keyword (sql : String) (kws : List String) : Bool :=
  immediateCommentAux kws none sql.data

/-! ### Validation stages (src/nodes/query_validator.py) -/

/-- validate_sql_safety (src/nodes/query_validator.py lines 60-93): one
error per forbidden keyword found (word-boundary search on the upper-cased
query), an error unless the trimmed upper-cased query starts with SELECT, an
error when the query exceeds MAX_QUERY_LENGTH, and a suspicious-comment
error when the query contains comment markers and the comment regex
matches. -/
def validate_sql_safety (sql : String) : Bool × List String :=
  let sql_upper := pyUpper sql
  let keyword_errors := FORBIDDEN_SQL_KEYWORDS.filterMap (fun kw =>
    if containsWord sql_upper kw then
      some ("Forbidden SQL keyword detected: " ++ kw)
    else none)
  let select_errors :=
    if !(pyStartsWith (pyStrip sql_upper) "SELECT") then
      ["Only SELECT queries are allowed"]
    else []
  let length_errors :=
    if pyLen sql > MAX_QUERY_LENGTH then
      ["Query too long. Maximum length is 5000 characters"]
    else []
  let comment_errors :=
    if (strContains sql "--" || strContains sql "/*" || strContains sql "*/")
        && has_suspicious_comment sql then
      ["Suspicious SQL comment detected"]
    else []
  let errors := keyword_errors ++ select_errors ++ length_errors ++ comment_errors
  (errors.isEmpty, errors)

/-- Statement counting of sqlparse.parse: a semicolon terminates a
statement, and trailing characters after the last semicolon form one final
statement when present (an empty input yields zero statements). The flag
records whether unterminated statement text has been seen. -/
def countStatementsAux : List Char → Bool → Nat
  | [], pending => if pending then 1 else 0
  | c :: rest, _ =>
    if c == ';' then 1 + countStatementsAux rest false
    else countStatementsAux rest true

/-- validate_sql_syntax (src/nodes/query_validator.py lines 23-57):
zero statements fail as unparseable and more than one statement fails as a
multiple-statement query; the bare name validate_sql_syntax would collide
with a reserved suffix, hence the _stage suffix. -/
def validate_sql_syntax_stage (sql : String) : Bool × List String :=
  let n := countStatementsAux sql.data false
  if n = 0 then (false, ["Failed to parse SQL query"])
  else if n > 1 then
    (false, ["Multiple SQL statements detected. Only single queries allowed."])
  else (true, [])

/-! ### Schema consistency (src/nodes/query_validator.py lines 96-161) -/

/-- Table entry of the schema dictionary: the column_name values of its
columns list. -/
structure TableInfo where
  columns : List String
deriving DecidableEq

/-- schema_info as the validator reads it: `none` when the dictionary is
falsy or has no tables key, otherwise the tables dictionary. -/
abbrev SchemaInfo := Option (List (String × TableInfo))

/-- Scanner for re.findall of \bKW\s+(\w+) (IGNORECASE): at every word
boundary where KW matches, at least one whitespace character and then a
maximal nonempty \w+ run are required, and that run is captured. -/
def extractAfterAux (kw : List Char) : Option Char → List Char → List String
  | _, [] => []
  | prev, c :: rest =>
    let tail := extractAfterAux kw (some c) rest
    if wordBoundaryOk prev then
      match dropCI kw (c :: rest) with
      | some rem =>
        let ws := rem.takeWhile Char.isWhitespace
        if ws.isEmpty then tail
        else
          let name := (rem.drop ws.length).takeWhile isWordChar
          if name.isEmpty then tail else String.mk name :: tail
      | none => tail
    else tail

/-- First-occurrence deduplication; Python's unordered set of mentioned
tables is modelled in first-mention order. -/
def dedupKeepFirst (seen : List String) : List String → List String
  | [] => []
  | x :: rest =>
    if seen.contains x then dedupKeepFirst seen rest
    else x :: dedupKeepFirst (x :: seen) rest

/-- Tables mentioned after FROM and JOIN (src/nodes/query_validator.py
lines 122-129). -/
def extract_tables (sql : String) : List String :=
  dedupKeepFirst []
    (extractAfterAux "FROM".data none sql.data ++
      extractAfterAux "JOIN".data none sql.data)

/-- Scanner for re.findall of \btable\.(\w+) (IGNORECASE): captured
qualified column names. -/
def extractColsAux (table : List Char) : Option Char → List Char → List String
  | _, [] => []
  | prev, c :: rest =>
    let tail := extractColsAux table (some c) rest
    if wordBoundaryOk prev then
      match dropCI table (c :: rest) with
      | some ('.' :: rem) =>
        let name := rem.takeWhile isWordChar
        if name.isEmpty then tail else String.mk name :: tail
      | _ => tail
    else tail

/-- validate_schema_consistency (src/nodes/query_validator.py lines
96-161): without usable schema info the stage degrades to a passing warning;
otherwise every mentioned table must exist case-insensitively and every
qualified column must exist in its table, with table errors listed before
column errors. -/
def validate_schema_consistency (sql : String) (schema_info : SchemaInfo) :
    Bool × List String :=
  match schema_info with
  | none => (true, ["Schema info not available for validation"])
  | some tables =>
    let table_names := tables.map (fun t => t.1)
    let mentioned := extract_tables sql
    let not_found := mentioned.filterMap (fun t =>
      if table_names.any (fun tn => pyLower tn == pyLower t) then none
      else some ("Table \x27" ++ t ++ "\x27 not found in schema"))
    let col_errors := mentioned.flatMap (fun t =>
      match table_names.find? (fun tn => pyLower tn == pyLower t) with
      | none => []
      | some matching =>
        match tables.lookup matching with
        | none => []
        | some info =>
          let table_columns := info.columns.map pyLower
          (extractColsAux t.data none sql.data).filterMap (fun col =>
            if table_columns.contains (pyLower col) then none
            else some ("Column \x27" ++ col ++ "\x27 not found in table \x27"
              ++ t ++ "\x27")))
    let errors := not_found ++ col_errors
    (errors.isEmpty, errors)

/-! ### Validator node (src/nodes/query_validator.py lines 164-253) -/

/-- State patch returned by query_validator_node; the per-stage flags are
the metadata keys syntax_valid / safety_valid / schema_valid, absent on the
missing-query path. -/
structure ValidationUpdates where
  validation_passed : Bool
  validation_errors : List String
  syntax_valid : Option Bool := none
  safety_valid : Option Bool := none
  schema_valid : Option Bool := none
deriving DecidableEq

/-- query_validator_node: a falsy sql_query short-circuits with a single
error; otherwise all three stages run unconditionally, validation_passed is
the conjunction of their flags and validation_errors the concatenation of
their error lists in stage order. -/
def query_validator_node (sql_query : Option String) (schema_info : SchemaInfo) :
    ValidationUpdates :=
  match sql_query with
  | none =>
    { validation_passed := false,
      validation_errors := ["No SQL query provided for validation"] }
  | some sql =>
    if sql.data.isEmpty then
      { validation_passed := false,
        validation_errors := ["No SQL query provided for validation"] }
    else
      let syntax_result := validate_sql_syntax_stage sql
      let safety_result := validate_sql_safety sql
      let schema_result := validate_schema_consistency sql schema_info
      { validation_passed := syntax_result.1 && safety_result.1 && schema_result.1,
        validation_errors := syntax_result.2 ++ safety_result.2 ++ schema_result.2,
        syntax_valid := some syntax_result.1,
        safety_valid := some safety_result.1,
        schema_valid := some schema_result.1 }

/-! ### Retry loop of the orchestrator

The error-handler node and its route_after_error function are referenced by
src/graphs/nlp_to_sql_graph.py but src/ contains no nodes/error_handler.py,
so the retry decision is modelled from the spec; the validator invoked in
the loop and the retry_count reset of user_input_node are taken from the
source. -/

/-- Outcome of one orchestrated user turn. -/
structure RetryTurnResult where
  generator_calls : Nat
  validation_passed : Bool
  terminal : String
deriving DecidableEq

/-- Modelled from the spec: ErrorHandler routing (route_after_error, absent
from src/) routes back to the Planner exactly when the error is retryable
and retry_count < MAX_RETRIES, incrementing retry_count, and otherwise
terminates the turn at FinalResponse; validation errors are retryable. The
generator is an opaque function from the attempt index to SQL text, and its
output is checked by query_validator_node. -/
def retryLoop (g : Nat → String) (schema : SchemaInfo) (maxRetries : Nat)
    (retry_count generator_calls : Nat) : RetryTurnResult :=
  let sql := g generator_calls
  let calls := generator_calls + 1
  let v := query_validator_node (some sql) schema
  if v.validation_passed then
    { generator_calls := calls, validation_passed := true,
      terminal := NodeNames.FINAL_RESPONSE }
  else
    if retry_count < maxRetries then
      retryLoop g schema maxRetries (retry_count + 1) calls
    else
      { generator_calls := calls, validation_passed := false,
        terminal := NodeNames.FINAL_RESPONSE }
termination_by maxRetries - retry_count
decreasing_by omega

/-- Modelled from the spec: a full user turn starts with retry_count = 0
(the reset performed by user_input_node, src/nodes/user_input.py line 76)
and then runs the generate-validate-retry loop. -/
def run_turn (g : Nat → String) (schema : SchemaInfo) (maxRetries : Nat) :
    RetryTurnResult :=
  retryLoop g schema maxRetries 0 0

/-! ### Claim-side definitions -/

/-- Spec-side reading of the reference trigger: some referential token
occurs as a whitespace-delimited token of the lower-cased query. -/
def hasReferentialToken (query : String) : Prop :=
  ∃ w ∈ reference_words, w ∈ pySplit (pyLower query)

/-- A session whose last successful query was "show sales". -/
def sessShowSales : SessionMemory :=
  { session_id := "s1", started_at := "t0", last_query := some "show sales" }

/-- A memory manager with no sessions and no current session. -/
def emptyManager : MemoryManager := {}

/-- Argument record for one SessionMemory.add_turn call. -/
structure TurnInput where
  timestamp : String
  user_query : String
  sql_query : Option String := none
  results_count : Option Nat := none
  success : Bool := true
  error_message : Option String := none
deriving DecidableEq

/-- The ConversationTurn that add_turn appends for the given call. -/
def mkTurn (i : TurnInput) : ConversationTurn :=
  { timestamp := i.timestamp, user_query := i.user_query,
    sql_query := i.sql_query, results_count := i.results_count,
    success := i.success, error_message := i.error_message }

/-- Sequential application of add_turn for a whole call sequence. -/
def apply_turns (s : SessionMemory) (l : List TurnInput) : SessionMemory :=
  l.foldl
    (fun s i => s.add_turn i.timestamp i.user_query i.sql_query i.results_count
      i.success i.error_message) s

/-- The most recent successful call of a sequence, if any. -/
def lastSuccessful (l : List TurnInput) : Option TurnInput :=
  (l.filter (fun i => i.success)).getLast?

/-- A generator that always returns SQL that fails validation. -/
def gBad : Nat → String := fun _ => "DROP TABLE x;"

/-! ### Helper lemmas -/

lemma data_isEmpty_false (s : String) (h : s ≠ "") : s.data.isEmpty = false := by
  obtain ⟨l⟩ := s
  cases l with
  | nil => exact absurd rfl h
  | cons c cs => rfl

lemma lookup_setSession_self (l : List (String × SessionMemory)) (k : String)
    (v : SessionMemory) : (setSession l k v).lookup k = some v := by
  induction l with
  | nil => simp [setSession, List.lookup]
  | cons p rest ih =>
    obtain ⟨k', v'⟩ := p
    by_cases h : k' = k
    · subst h
      simp [setSession, List.lookup]
    · have hb : (k == k') = false := by
        simp only [beq_eq_false_iff_ne]
        exact Ne.symm h
      simp [setSession, h, List.lookup, hb, ih]

lemma lookup_setSession_ne (l : List (String × SessionMemory)) (k k' : String)
    (v : SessionMemory) (h : k' ≠ k) :
    (setSession l k v).lookup k' = l.lookup k' := by
  have hb : (k' == k) = false := by
    simp only [beq_eq_false_iff_ne]
    exact h
  induction l with
  | nil => simp [setSession, List.lookup, hb]
  | cons p rest ih =>
    obtain ⟨ka, va⟩ := p
    by_cases hk : ka = k
    · subst hk
      simp [setSession, List.lookup, hb]
    · simp [setSession, hk, List.lookup, ih]

/-! ### Theorems for the claims -/

/-- C2: on input "  Bye  " the user_input node returns should_exit = true
and the routing function selects the Exit node (any non-exit state routes
to ContextManager), but the graph built by create_nlp_to_sql_graph neither
registers the Exit node nor maps the Exit branch of the conditional edge
(both lines are commented out), so the compiled graph cannot perform the
UserInput-to-Exit transition the spec requires. -/
theorem user_input_exit_routing_bug :
    (user_input_node "  Bye  " none).should_exit = true
    ∧ should_exit_route (some true) = NodeNames.EXIT
    ∧ user_input_branch_map NodeNames.EXIT = none
    ∧ registered_nodes.contains NodeNames.EXIT = false
    ∧ should_exit_route (some false) = NodeNames.CONTEXT_MANAGER
    ∧ user_input_branch_map NodeNames.CONTEXT_MANAGER =
        some NodeNames.CONTEXT_MANAGER := by
  decide

/-- C3: route_after_validation returns sql_executor exactly when
validation_passed is true and error_handler otherwise (also for the absent
default), while route_after_execution returns output_formatter on success
but on failure falls off the end of the Python function, yielding None
instead of the error_handler target the claim states. -/
theorem route_after_stage_results :
    route_after_validation (some true) = NodeNames.SQL_EXECUTOR
    ∧ route_after_validation (some false) = NodeNames.ERROR_HANDLER
    ∧ route_after_validation none = NodeNames.ERROR_HANDLER
    ∧ route_after_execution (some true) = some NodeNames.OUTPUT_FORMATTER
    ∧ route_after_execution (some false) = none
    ∧ route_after_execution none = none
    ∧ route_after_execution (some false) ≠ some NodeNames.ERROR_HANDLER := by
  decide

/-- C10: on a well-formed SELECT with no usable schema information the
validator returns validation_passed = true while validation_errors is the
non-empty warning list of the schema stage, so passing validation does not
imply an empty error list. -/
theorem validator_passes_with_nonempty_errors :
    (query_validator_node (some "SELECT * FROM orders") none).validation_passed
      = true
    ∧ (query_validator_node (some "SELECT * FROM orders") none).validation_errors
        = ["Schema info not available for validation"]
    ∧ (query_validator_node (some "SELECT * FROM orders") none).validation_errors
        ≠ [] := by
  decide

/-- C9: the schema-cache reader returns a miss for a missing file, for a
malformed file and for an expired timestamp alike; the cached schema is
returned exactly while now - timestamp < CACHE_TTL (strict), so any hit
implies the strict age bound. -/
theorem load_schema_cache_spec {α : Type} (e : Bool) (now ts : Int)
    (sch : Option α) :
    load_schema_cache e CacheFileState.missing now = (none : Option α)
    ∧ load_schema_cache e CacheFileState.malformed now = (none : Option α)
    ∧ (CACHE_TTL ≤ now - ts →
        load_schema_cache e (CacheFileState.wellFormed (some ts) sch) now = none)
    ∧ (now - ts < CACHE_TTL →
        load_schema_cache true (CacheFileState.wellFormed (some ts) sch) now = sch)
    ∧ (load_schema_cache e (CacheFileState.wellFormed (some ts) sch) now ≠ none →
        now - ts < CACHE_TTL) := by
  refine ⟨?_, ?_, ?_, ?_, ?_⟩
  · cases e <;> rfl
  · cases e <;> rfl
  · intro h
    cases e
    · rfl
    · simp only [load_schema_cache, Bool.not_true, Bool.false_eq_true, if_false,
        Option.getD]
      rw [if_neg]
      omega
  · intro h
    simp only [load_schema_cache, Bool.not_true, Bool.false_eq_true, if_false,
      Option.getD]
    rw [if_pos]
    omega
  · intro h
    by_contra hlt
    apply h
    cases e
    · rfl
    · simp only [load_schema_cache, Bool.not_true, Bool.false_eq_true, if_false,
        Option.getD]
      rw [if_neg]
      omega

/-- C9 witness: a 500-second-old entry is returned, a 4500-second-old entry
is absent (CACHE_TTL = 3600). -/
theorem load_schema_cache_spec_witness :
    load_schema_cache true (CacheFileState.wellFormed (some 500) (some (7 : Nat)))
        1000 = some 7
    ∧ load_schema_cache true (CacheFileState.wellFormed (some 500) (some (7 : Nat)))
        5000 = none :=
  ⟨(load_schema_cache_spec true 1000 500 (some 7)).2.2.2.1 (by decide),
   (load_schema_cache_spec true 5000 500 (some 7)).2.2.1 (by decide)⟩

lemma hasReferentialToken_iff (q : String) :
    hasReferentialToken q ↔
      reference_words.any (fun w => (pySplit (pyLower q)).contains w) = true := by
  simp [hasReferentialToken, List.any_eq_true, List.contains, List.elem_iff]

instance (q : String) : Decidable (hasReferentialToken q) := by
  unfold hasReferentialToken
  infer_instance

lemma resolve_eq (q : String) (s : SessionMemory) :
    resolve_pronoun_references q (some s) =
      match s.last_query with
      | none => q
      | some lq =>
        if lq.data.isEmpty then q
        else if reference_words.any (fun w => (pySplit (pyLower q)).contains w) then
          q ++ " (referring to previous query: \x27" ++ lq ++ "\x27)"
        else q := rfl

/-- C4 counterexample: the session has the non-empty last_query
"show sales", yet resolve_pronoun_references returns "what about it?"
unchanged, because its token "it?" carries the question mark and is not
equal to the reference word "it". -/
theorem resolve_references_question_counterexample :
    sessShowSales.last_query = some "show sales"
    ∧ ("show sales" : String) ≠ ""
    ∧ resolve_pronoun_references "what about it?" (some sessShowSales)
        = "what about it?" :=
  ⟨rfl, by decide, by decide⟩

/-- C4 (amended): resolve_pronoun_references appends the context note
quoting last_query exactly when a referential token occurs as a
whitespace-delimited token of the lower-cased query and the session exists
with a non-empty last_query, and returns the query unchanged otherwise; in
particular the punctuation-free query "what about it" is annotated exactly
when last_query is non-empty (the claim's example "what about it?" is not,
since its last token is "it?"). -/
theorem resolve_references_spec (q : String) (s : SessionMemory) (lq : String) :
    (s.last_query = some lq → lq ≠ "" → hasReferentialToken q →
      resolve_pronoun_references q (some s) =
        q ++ " (referring to previous query: \x27" ++ lq ++ "\x27)")
    ∧ (¬ hasReferentialToken q → resolve_pronoun_references q (some s) = q)
    ∧ (s.last_query = none → resolve_pronoun_references q (some s) = q)
    ∧ (s.last_query = some "" → resolve_pronoun_references q (some s) = q)
    ∧ resolve_pronoun_references q none = q
    ∧ (s.last_query = some lq → lq ≠ "" →
        resolve_pronoun_references "what about it" (some s) =
          "what about it (referring to previous query: \x27" ++ lq ++ "\x27)")
    ∧ (s.last_query = none →
        resolve_pronoun_references "what about it" (some s) = "what about it") := by
  refine ⟨?_, ?_, ?_, ?_, rfl, ?_, ?_⟩
  · intro h1 h2 h3
    have hd : lq.data.isEmpty = false := data_isEmpty_false lq h2
    have hb := (hasReferentialToken_iff q).mp h3
    simp only [resolve_eq, h1, hd, hb]
    simp
  · intro h
    have hb : reference_words.any (fun w => (pySplit (pyLower q)).contains w)
        = false := by
      cases hany : reference_words.any (fun w => (pySplit (pyLower q)).contains w)
      · rfl
      · exact absurd ((hasReferentialToken_iff q).mpr hany) h
    cases hs : s.last_query with
    | none => simp [resolve_eq, hs]
    | some lq' =>
      simp only [resolve_eq, hs, hb]
      simp
  · intro h
    simp [resolve_eq, h]
  · intro h
    simp [resolve_eq, h]
  · intro h1 h2
    have hd : lq.data.isEmpty = false := data_isEmpty_false lq h2
    have hb : reference_words.any
        (fun w => (pySplit (pyLower "what about it")).contains w) = true := by
      decide
    simp only [resolve_eq, h1, hd, hb]
    simp
  · intro h
    simp [resolve_eq, h]

/-- C4 witness: with last_query "show sales", the query containing the
token "same" is annotated, and so is "what about it". -/
theorem resolve_references_spec_witness :
    resolve_pronoun_references "show the same for march" (some sessShowSales) =
      "show the same for march" ++ " (referring to previous query: \x27show sales\x27)"
    ∧ resolve_pronoun_references "what about it" (some sessShowSales) =
      "what about it (referring to previous query: \x27show sales\x27)" :=
  ⟨(resolve_references_spec "show the same for march" sessShowSales "show sales").1
      rfl (by decide) (by decide),
   (resolve_references_spec "what about it" sessShowSales "show sales").2.2.2.2.2.1
      rfl (by decide)⟩

/-- C7 counterexample: recording a turn that references the unknown session
id "abc" does not create a session under "abc": the turn lands in a fresh
session stored under the generated id, and "abc" stays unmapped. -/
theorem update_session_referenced_id_counterexample :
    (update_session emptyManager "show sales" none none true none (some "abc")
        "session_20250101_000000" "st" "ts").sessions.lookup "abc" = none
    ∧ (update_session emptyManager "show sales" none none true none (some "abc")
        "session_20250101_000000" "st" "ts").sessions.lookup
          "session_20250101_000000" =
        some { session_id := "session_20250101_000000", started_at := "st",
               conversation_history :=
                 [{ timestamp := "ts", user_query := "show sales" }],
               last_query := some "show sales" } := by
  decide

/-- C7 (amended): a session_id still maps to at most one session, and
get-or-create in the ContextManager stage creates the session under the
referenced id; but update_session, when the referenced id has no session,
creates the new session under a freshly generated id, records the turn
there, makes it current, and leaves the referenced id unmapped. -/
theorem update_session_generated_id (m : MemoryManager) (q : String)
    (sql : Option String) (results : Option (List String)) (success : Bool)
    (err : Option String) (sid gen started ts : String)
    (hsid : sid ≠ "") (hgen : sid ≠ gen)
    (hnone : m.sessions.lookup sid = none) :
    (update_session m q sql results success err (some sid) gen started
        ts).sessions.lookup sid = none
    ∧ (update_session m q sql results success err (some sid) gen started
        ts).sessions.lookup gen =
        some (apply_update_turn { session_id := gen, started_at := started }
          ts q sql results success err)
    ∧ (update_session m q sql results success err (some sid) gen started
        ts).current_session_id = some gen
    ∧ (context_manager_ensure_session m (some sid) gen started).sessions.lookup
        sid = some { session_id := sid, started_at := started } := by
  have hd : sid.data.isEmpty = false := data_isEmpty_false sid hsid
  have h1 : update_session m q sql results success err (some sid) gen started ts =
      { sessions := setSession
          (setSession m.sessions gen { session_id := gen, started_at := started })
          gen
          (apply_update_turn { session_id := gen, started_at := started }
            ts q sql results success err),
        current_session_id := some gen } := by
    simp [update_session, effectiveSid, hd, hnone, create_session]
  refine ⟨?_, ?_, ?_, ?_⟩
  · rw [h1]
    show (setSession (setSession m.sessions gen _) gen _).lookup sid = none
    rw [lookup_setSession_ne _ _ _ _ hgen, lookup_setSession_ne _ _ _ _ hgen,
      hnone]
  · rw [h1]
    exact lookup_setSession_self _ _ _
  · rw [h1]
  · simp [context_manager_ensure_session, get_session, effectiveSid, hd, hnone,
      create_session, lookup_setSession_self]

/-- C7 witness: concrete instance of the amended statement on an empty
manager, a referenced id "user7" and a generated id "gen1". -/
theorem update_session_generated_id_witness :
    (update_session emptyManager "q1" none none true none (some "user7") "gen1"
        "t0" "t1").sessions.lookup "user7" = none
    ∧ (update_session emptyManager "q1" none none true none (some "user7") "gen1"
        "t0" "t1").sessions.lookup "gen1" =
        some (apply_update_turn { session_id := "gen1", started_at := "t0" }
          "t1" "q1" none none true none)
    ∧ (update_session emptyManager "q1" none none true none (some "user7") "gen1"
        "t0" "t1").current_session_id = some "gen1"
    ∧ (context_manager_ensure_session emptyManager (some "user7") "gen1"
        "t0").sessions.lookup "user7" =
        some { session_id := "user7", started_at := "t0" } :=
  update_session_generated_id emptyManager "q1" none none true none "user7"
    "gen1" "t0" "t1" (by decide) (by decide) (by decide)

/-- C6: applying any sequence of add_turn calls appends exactly one turn per
call, in call order, and last_query / last_sql equal the user_query and
sql_query of the most recent successful call, falling back to their prior
values when no call in the sequence succeeded. -/
theorem session_turn_history_spec (s : SessionMemory) (l : List TurnInput) :
    (apply_turns s l).conversation_history =
      s.conversation_history ++ l.map mkTurn
    ∧ (apply_turns s l).last_query =
        (match lastSuccessful l with
          | some i => some i.user_query
          | none => s.last_query)
    ∧ (apply_turns s l).last_sql =
        (match lastSuccessful l with
          | some i => i.sql_query
          | none => s.last_sql) := by
  induction l using List.reverseRecOn with
  | nil => simp [apply_turns, lastSuccessful]
  | append_singleton l i ih =>
    have happ : apply_turns s (l ++ [i]) =
        (apply_turns s l).add_turn i.timestamp i.user_query i.sql_query
          i.results_count i.success i.error_message := by
      simp [apply_turns]
    have hlast : lastSuccessful (l ++ [i]) =
        if i.success then some i else lastSuccessful l := by
      cases hs : i.success
      · simp [lastSuccessful, List.filter_append, hs]
      · simp [lastSuccessful, List.filter_append, hs, List.getLast?_concat]
    obtain ⟨ih1, ih2, ih3⟩ := ih
    refine ⟨?_, ?_, ?_⟩
    · rw [happ]
      simp [SessionMemory.add_turn, ih1, mkTurn]
    · rw [happ, hlast]
      cases hs : i.success
      · simpa [SessionMemory.add_turn, hs] using ih2
      · simp [SessionMemory.add_turn, hs]
    · rw [happ, hlast]
      cases hs : i.success
      · simpa [SessionMemory.add_turn, hs] using ih3
      · simp [SessionMemory.add_turn, hs]

/-- C5: for a present, non-empty SQL candidate the validator runs all three
stages regardless of earlier failures: validation_passed is the conjunction
of the three stage flags and validation_errors is the concatenation of the
three stage error lists in stage order (syntax, safety, schema), with the
per-stage metadata flags mirroring the stage outcomes. -/
theorem query_validator_aggregation (sql : String) (schema : SchemaInfo)
    (h : sql ≠ "") :
    (query_validator_node (some sql) schema).validation_passed =
      ((validate_sql_syntax_stage sql).1 && (validate_sql_safety sql).1 &&
        (validate_schema_consistency sql schema).1)
    ∧ (query_validator_node (some sql) schema).validation_errors =
        (validate_sql_syntax_stage sql).2 ++ (validate_sql_safety sql).2 ++
          (validate_schema_consistency sql schema).2
    ∧ (query_validator_node (some sql) schema).syntax_valid =
        some (validate_sql_syntax_stage sql).1
    ∧ (query_validator_node (some sql) schema).safety_valid =
        some (validate_sql_safety sql).1
    ∧ (query_validator_node (some sql) schema).schema_valid =
        some (validate_schema_consistency sql schema).1 := by
  have hd : sql.data.isEmpty = false := data_isEmpty_false sql h
  simp [query_validator_node, hd]

/-- C5 witness: the aggregation equalities instantiated on the rejected
candidate "DROP TABLE x;" with no schema info. -/
theorem query_validator_aggregation_witness :
    (query_validator_node (some "DROP TABLE x;") none).validation_errors =
      (validate_sql_syntax_stage "DROP TABLE x;").2 ++
        (validate_sql_safety "DROP TABLE x;").2 ++
        (validate_schema_consistency "DROP TABLE x;" none).2
    ∧ (query_validator_node (some "DROP TABLE x;") none).validation_passed =
      ((validate_sql_syntax_stage "DROP TABLE x;").1 &&
        (validate_sql_safety "DROP TABLE x;").1 &&
        (validate_schema_consistency "DROP TABLE x;" none).1) :=
  ⟨(query_validator_aggregation "DROP TABLE x;" none (by decide)).2.1,
   (query_validator_aggregation "DROP TABLE x;" none (by decide)).1⟩

/-! ### Lemmas connecting the immediate-comment predicate to the safety
scanner -/

lemma dropCI_lineRemainder {kw rest t : List Char}
    (hkw : ∀ k ∈ kw, k.toUpper ≠ '\n')
    (h : dropCI kw rest = some t) :
    dropCI kw (lineRemainder rest) = some (lineRemainder t) := by
  induction kw generalizing rest with
  | nil =>
    simp only [dropCI, Option.some.injEq] at h
    subst h
    rfl
  | cons k ks ih =>
    cases rest with
    | nil => simp [dropCI] at h
    | cons c cs =>
      simp only [dropCI] at h
      cases hc : (c.toUpper == k.toUpper) with
      | false => simp [hc] at h
      | true =>
        simp only [hc, if_true] at h
        have hcn : c ≠ '\n' := by
          intro hceq
          subst hceq
          have hk := hkw k (by simp)
          apply hk
          have := (beq_iff_eq.mp hc).symm
          simpa using this
        have hbn : (c != '\n') = true := bne_iff_ne.mpr hcn
        have hline : lineRemainder (c :: cs) = c :: lineRemainder cs := by
          simp [lineRemainder, List.takeWhile, hbn]
        rw [hline]
        simp only [dropCI, hc, if_true]
        exact ih (fun k hk => hkw k (by simp [hk])) h

lemma wordAtHead_lineRemainder {prev : Option Char} {kw rest : List Char}
    (hkw : ∀ k ∈ kw, k.toUpper ≠ '\n')
    (h : wordAtHead prev kw rest = true) :
    wordAtHead prev kw (lineRemainder rest) = true := by
  unfold wordAtHead at h ⊢
  rw [Bool.and_eq_true] at h ⊢
  obtain ⟨hb, hm⟩ := h
  refine ⟨hb, ?_⟩
  cases hdrop : dropCI kw rest with
  | none => rw [hdrop] at hm; exact absurd hm (by simp)
  | some t =>
    rw [hdrop] at hm
    rw [dropCI_lineRemainder hkw hdrop]
    cases t with
    | nil => rfl
    | cons c t' =>
      by_cases hc : c = '\n'
      · subst hc
        simp [lineRemainder, List.takeWhile]
      · have hbn : (c != '\n') = true := bne_iff_ne.mpr hc
        have hline : lineRemainder (c :: t') = c :: lineRemainder t' := by
          simp [lineRemainder, List.takeWhile, hbn]
        rw [hline]
        exact hm

lemma containsWord_of_wordAtHead {prev : Option Char} {kw l : List Char}
    (h : wordAtHead prev kw l = true) :
    containsWordAux kw prev l = true := by
  cases l with
  | nil => exact h
  | cons c rest => simp [containsWordAux, h]

lemma suspicious_of_immediate {kws : List String}
    (hkw : ∀ kw ∈ kws, ∀ k ∈ kw.data, k.toUpper ≠ '\n') :
    ∀ (l : List Char) (prev : Option Char),
      immediateCommentAux kws prev l = true →
      suspiciousCommentAux kws prev l = true := by
  intro l
  induction l with
  | nil => intro prev h; simp [immediateCommentAux] at h
  | cons c rest ih =>
    intro prev h
    simp only [immediateCommentAux, Bool.or_eq_true] at h
    rcases h with h1 | h2
    · rw [Bool.and_eq_true, Bool.and_eq_true] at h1
      obtain ⟨⟨hp, hc⟩, hany⟩ := h1
      obtain ⟨kw, hmem, hw⟩ := List.any_eq_true.mp hany
      have hw' := wordAtHead_lineRemainder (hkw kw hmem) hw
      have hcont := containsWord_of_wordAtHead hw'
      simp only [suspiciousCommentAux, Bool.or_eq_true]
      left
      rw [Bool.and_eq_true, Bool.and_eq_true]
      exact ⟨⟨hp, hc⟩, List.any_eq_true.mpr ⟨kw, hmem, hcont⟩⟩
    · simp only [suspiciousCommentAux, Bool.or_eq_true]
      right
      exact ih (some c) h2

lemma hasSubstr_dashdash_of_immediate {kws : List String} :
    ∀ (l : List Char) (prev : Option Char),
      immediateCommentAux kws prev l = true →
      (prev = some '-' ∧ l.head? = some '-') ∨ hasSubstrAux ['-', '-'] l = true := by
  intro l
  induction l with
  | nil => intro prev h; simp [immediateCommentAux] at h
  | cons c rest ih =>
    intro prev h
    simp only [immediateCommentAux, Bool.or_eq_true] at h
    rcases h with h1 | h2
    · rw [Bool.and_eq_true, Bool.and_eq_true] at h1
      obtain ⟨⟨hp, hc⟩, _⟩ := h1
      exact Or.inl ⟨beq_iff_eq.mp hp, by simp [beq_iff_eq.mp hc]⟩
    · rcases ih (some c) h2 with ⟨hceq, hhead⟩ | hsub
      · right
        have hc : c = '-' := by simpa using hceq
        subst hc
        cases rest with
        | nil => simp at hhead
        | cons c2 r2 =>
          have hc2 : c2 = '-' := by simpa using hhead
          subst hc2
          simp [hasSubstrAux, dropExact]
      · right
        simp [hasSubstrAux, hsub]

lemma strContains_dashdash_of_immediate (sql : String) (kws : List String)
    (h : has_immediate_comment_keyword sql kws = true) :
    strContains sql "--" = true := by
  unfold has_immediate_comment_keyword at h
  unfold strContains
  rcases hasSubstr_dashdash_of_immediate sql.data none h with ⟨hp, _⟩ | hs
  · exact absurd hp (by simp)
  · exact hs

lemma safety_flag_isEmpty (sql : String) :
    (validate_sql_safety sql).1 = (validate_sql_safety sql).2.isEmpty := rfl

/-- C8 counterexample: in "SELECT 1 --TRUNCATE" the inline comment is
immediately followed by the forbidden keyword TRUNCATE, yet the safety
check emits no suspicious-comment error, because its comment regex only
covers DROP, DELETE and INSERT. -/
theorem suspicious_comment_truncate_counterexample :
    has_immediate_comment_keyword "SELECT 1 --TRUNCATE" FORBIDDEN_SQL_KEYWORDS
      = true
    ∧ ("TRUNCATE" : String) ∈ FORBIDDEN_SQL_KEYWORDS
    ∧ validate_sql_safety "SELECT 1 --TRUNCATE" =
        (false, ["Forbidden SQL keyword detected: TRUNCATE"])
    ∧ "Suspicious SQL comment detected" ∉
        (validate_sql_safety "SELECT 1 --TRUNCATE").2 := by
  decide

/-- C8 (amended): the safety stage emits one error per forbidden keyword of
the fixed set found by case-insensitive word-boundary search, an error when
the trimmed statement does not start with SELECT, an error when the
statement exceeds MAX_QUERY_LENGTH, and the suspicious-comment error
whenever an inline comment is immediately followed by DROP, DELETE or
INSERT (the only keywords its comment regex covers); any emitted error makes
the stage reject, and validating "DROP TABLE x;" fails with at least two
errors under every schema. -/
theorem validate_sql_safety_spec (sql kw : String) (schema : SchemaInfo) :
    (kw ∈ FORBIDDEN_SQL_KEYWORDS → containsWord (pyUpper sql) kw = true →
      ("Forbidden SQL keyword detected: " ++ kw) ∈ (validate_sql_safety sql).2)
    ∧ (pyStartsWith (pyStrip (pyUpper sql)) "SELECT" = false →
      "Only SELECT queries are allowed" ∈ (validate_sql_safety sql).2)
    ∧ (pyLen sql > MAX_QUERY_LENGTH →
      "Query too long. Maximum length is 5000 characters" ∈
        (validate_sql_safety sql).2)
    ∧ (has_immediate_comment_keyword sql comment_regex_keywords = true →
      "Suspicious SQL comment detected" ∈ (validate_sql_safety sql).2)
    ∧ ((validate_sql_safety sql).2 ≠ [] → (validate_sql_safety sql).1 = false)
    ∧ 2 ≤ (query_validator_node (some "DROP TABLE x;")
        schema).validation_errors.length
    ∧ (query_validator_node (some "DROP TABLE x;") schema).validation_passed
        = false := by
  refine ⟨?_, ?_, ?_, ?_, ?_, ?_, ?_⟩
  · intro hmem h
    simp only [validate_sql_safety, List.mem_append]
    left; left; left
    rw [List.mem_filterMap]
    exact ⟨kw, hmem, by rw [if_pos h]⟩
  · intro h
    simp [validate_sql_safety, h]
  · intro h
    simp [validate_sql_safety, h]
  · intro h
    have hg : strContains sql "--" = true :=
      strContains_dashdash_of_immediate sql comment_regex_keywords h
    have hs : has_suspicious_comment sql = true := by
      unfold has_suspicious_comment
      unfold has_immediate_comment_keyword at h
      exact suspicious_of_immediate (by decide) sql.data none h
    simp [validate_sql_safety, hg, hs]
  · intro h
    rw [safety_flag_isEmpty]
    cases hl : (validate_sql_safety sql).2 with
    | nil => exact absurd hl h
    | cons a l => rfl
  · have hsaf : validate_sql_safety "DROP TABLE x;" =
        (false, ["Forbidden SQL keyword detected: DROP",
          "Only SELECT queries are allowed"]) := by decide
    have hsyn : validate_sql_syntax_stage "DROP TABLE x;" = (true, []) := by
      decide
    simp [query_validator_node, hsaf, hsyn]
  · have hsaf : validate_sql_safety "DROP TABLE x;" =
        (false, ["Forbidden SQL keyword detected: DROP",
          "Only SELECT queries are allowed"]) := by decide
    simp [query_validator_node, hsaf]

/-- C8 witness: on "SELECT 1 --DROP" the forbidden-keyword error and the
suspicious-comment error are both emitted, and validating "DROP TABLE x;"
against the empty schema yields at least two errors. -/
theorem validate_sql_safety_spec_witness :
    ("Forbidden SQL keyword detected: " ++ "DROP") ∈
      (validate_sql_safety "SELECT 1 --DROP").2
    ∧ "Suspicious SQL comment detected" ∈
      (validate_sql_safety "SELECT 1 --DROP").2
    ∧ 2 ≤ (query_validator_node (some "DROP TABLE x;")
        none).validation_errors.length :=
  ⟨(validate_sql_safety_spec "SELECT 1 --DROP" "DROP" none).1 (by decide)
      (by decide),
   (validate_sql_safety_spec "SELECT 1 --DROP" "DROP" none).2.2.2.1 (by decide),
   (validate_sql_safety_spec "SELECT 1 --DROP" "DROP" none).2.2.2.2.2.1⟩

lemma retryLoop_always_fail (g : Nat → String) (schema : SchemaInfo) (k : Nat)
    (hg : ∀ n,
      (query_validator_node (some (g n)) schema).validation_passed = false) :
    ∀ (d rc calls : Nat), k - rc = d → rc ≤ k →
      retryLoop g schema k rc calls =
        { generator_calls := calls + (k - rc) + 1, validation_passed := false,
          terminal := NodeNames.FINAL_RESPONSE } := by
  intro d
  induction d with
  | zero =>
    intro rc calls hd hle
    unfold retryLoop
    simp only [hg, Bool.false_eq_true, if_false]
    have hnlt : ¬ rc < k := by omega
    rw [if_neg hnlt]
    have he : calls + (k - rc) + 1 = calls + 1 := by omega
    rw [he]
  | succ d ih =>
    intro rc calls hd hle
    unfold retryLoop
    simp only [hg, Bool.false_eq_true, if_false]
    have hlt : rc < k := by omega
    rw [if_pos hlt]
    rw [ih (rc + 1) (calls + 1) (by omega) (by omega)]
    have he : calls + 1 + (k - (rc + 1)) + 1 = calls + (k - rc) + 1 := by omega
    rw [he]

/-- C1: retry_count is reset to 0 by user_input_node for every non-exit,
non-empty turn (the code's retry_count := 0 patch); with that reset, a
generator whose SQL always fails validation is invoked exactly
maxRetries + 1 times (the initial attempt plus one per retry, the count
incremented only when the retryable validation error routes back to
generation), after which the turn terminates at FinalResponse with
validation_passed = false. -/
theorem retry_bound_spec (g : Nat → String) (schema : SchemaInfo) (k : Nat)
    (hg : ∀ n,
      (query_validator_node (some (g n)) schema).validation_passed = false) :
    run_turn g schema k =
      { generator_calls := k + 1, validation_passed := false,
        terminal := NodeNames.FINAL_RESPONSE }
    ∧ (∀ (q : String) (s : Option SessionMemory),
        EXIT_COMMANDS.contains (pyLower (pyStrip q)) = false →
        (pyStrip q).data.isEmpty = false →
        (user_input_node q s).retry_count = some 0) := by
  refine ⟨?_, ?_⟩
  · have h := retryLoop_always_fail g schema k hg k 0 0 (by omega) (by omega)
    simpa [run_turn] using h
  · intro q s hexit hempty
    have hexit' : pyLower (pyStrip q) ∉ EXIT_COMMANDS := by simpa using hexit
    simp [user_input_node, hexit', hempty]

/-- C1 witness: with MAX_RETRIES = 2 and the always-invalid generator the
orchestrated turn makes exactly 3 generator calls and terminates at
FinalResponse with validation_passed = false, and a normal query resets
retry_count to 0. -/
theorem retry_bound_spec_witness :
    run_turn gBad none 2 =
      { generator_calls := 3, validation_passed := false,
        terminal := NodeNames.FINAL_RESPONSE }
    ∧ (user_input_node "show sales" none).retry_count = some 0 :=
  ⟨(retry_bound_spec gBad none 2 (fun n => by
      show (query_validator_node (some "DROP TABLE x;") none).validation_passed
        = false
      decide)).1,
   (retry_bound_spec gBad none 2 (fun n => by
      show (query_validator_node (some "DROP TABLE x;") none).validation_passed
        = false
      decide)).2 "show sales" none (by decide) (by decide)⟩

end PowerBIAgent
